import Mathlib

/-!
Verification of the streaming process supervisor in
`moonraker_obico/webcam_stream.py` against its natural-language
specification.  Python functions are shallowly embedded as Lean
definitions; subprocess behaviour is made explicit as data
(exit codes, stderr lines, exit-within-grace flags) threaded through
the embedded control flow.
-/

namespace MoonrakerObico

/-- Embeds `bitrate_for_dim` (webcam_stream.py lines 29-38), as a function
of the pixel area `dim = img_w * img_h`. -/
def bitrateOfArea (dim : Nat) : Nat :=
  if dim ≤ 480 * 270 then 400 * 1000
  else if dim ≤ 960 * 540 then 1300 * 1000
  else if dim ≤ 1280 * 720 then 2000 * 1000
  else 3000 * 1000

/-- Embeds `bitrate_for_dim(img_w, img_h)` (webcam_stream.py lines 29-38). -/
def bitrate_for_dim (img_w img_h : Nat) : Nat :=
  bitrateOfArea (img_w * img_h)

/-- Embeds the framerate/bitrate selection in `ffmpeg_from_mjpeg`
(webcam_stream.py lines 144-148): `fps = 25`, and if the linked printer is
not pro, `fps = 5` and `bitrate = int(bitrate/4)`.  All table bitrates are
divisible by 4 and far below 2^53, so the Python float division followed by
`int` truncation coincides with natural-number division. -/
def stream_policy (img_w img_h : Nat) (is_pro : Bool) : Nat × Nat :=
  let bitrate := bitrate_for_dim img_w img_h
  if is_pro then (25, bitrate) else (5, bitrate / 4)

/-- First candidate codec tried by `h264_encoder` (webcam_stream.py line 123). -/
def omxEncoder : String := "h264_omx"

/-- Second candidate codec tried by `h264_encoder` (webcam_stream.py line 123). -/
def v4l2Encoder : String := "h264_v4l2m2m"

/-- The fixed priority-ordered candidate list of `h264_encoder`
(webcam_stream.py line 123): `['h264_omx', 'h264_v4l2m2m']`. -/
def h264_encoder_candidates : List String := [omxEncoder, v4l2Encoder]

/-- Embeds the `for encoder in [...]` loop of `h264_encoder`
(webcam_stream.py lines 123-129).  `trial c` is the exit status of the
trial-encode subprocess for candidate `c`.  Returns the selected encoder
(`none` models the final `raise`) together with the list of candidates whose
trial subprocess was actually launched, in launch order. -/
def detectFirstEncoder (trial : String → Int) : List String → Option String × List String
  | [] => (none, [])
  | c :: rest =>
    if trial c = 0 then (some c, [c])
    else
      let r := detectFirstEncoder trial rest
      (r.1, c :: r.2)

/-- Embeds `h264_encoder` (webcam_stream.py lines 120-129): tries the fixed
candidate list in order, returning the first candidate whose trial exits
with status 0; `none` models the `raise Exception(no ffmpeg ...)`. -/
def h264_encoder (trial : String → Int) : Option String × List String :=
  detectFirstEncoder trial h264_encoder_candidates

/-- The timeout argument passed to `ffmpeg_test_proc.wait()` inside
`h264_encoder` (webcam_stream.py line 127).  The source calls `wait()` with
no argument, i.e. no timeout; contrast `wait(timeout=5)` on line 67 and
`wait(timeout=10)` on line 161. -/
def h264_trial_wait_timeout : Option Nat := none

/-- Models the termination behaviour of `psutil.Popen.wait`: the call
returns (rather than blocking forever) iff the process eventually exits
(`exitTime = some t`) or a timeout was supplied.  `waitBlocksForever` is
true exactly when the wait can never return. -/
def waitBlocksForever (exitTime timeout : Option Nat) : Bool :=
  exitTime.isNone && timeout.isNone

/-- Embeds the retry loop that `@backoff.on_exception(backoff.expo,
Exception, max_tries=20)` wraps around `get_webcam_resolution`
(webcam_stream.py lines 112-118).  `capture i` is the outcome of the i-th
attempt (`none` models `capture_jpeg` raising or returning a falsy jpeg,
`some r` a decoded sample).  The first argument is the number of tries left,
the second the index of the next attempt.  Returns the final outcome
together with the number of attempts actually made. -/
def retryCalls {α : Type} (capture : Nat → Option α) : Nat → Nat → Option α × Nat
  | 0, _ => (none, 0)
  | k + 1, i =>
    match capture i with
    | some r => (some r, 1)
    | none =>
      let rest := retryCalls capture k (i + 1)
      (rest.1, rest.2 + 1)

/-- Embeds `get_webcam_resolution` with its backoff decorator
(webcam_stream.py lines 112-118): up to 20 attempts, starting at attempt 1.
`none` in the first component models the 20th exception propagating to the
caller. -/
def get_webcam_resolution {α : Type} (capture : Nat → Option α) : Option α × Nat :=
  retryCalls capture 20 1

/-- Claim C3: `h264_encoder` tries the candidates in the fixed order
`h264_omx` then `h264_v4l2m2m`, returns the first whose trial exits with
status 0, launches no trial after the first success, and fails (raises,
modelled as `none`) when every trial fails. -/
theorem C3_encoder_probe (trial : String → Int) :
    h264_encoder trial =
      if trial omxEncoder = 0 then (some omxEncoder, [omxEncoder])
      else if trial v4l2Encoder = 0 then
        (some v4l2Encoder, [omxEncoder, v4l2Encoder])
      else (none, [omxEncoder, v4l2Encoder]) := by
  by_cases h1 : trial omxEncoder = 0 <;> by_cases h2 : trial v4l2Encoder = 0 <;>
    simp [h264_encoder, h264_encoder_candidates, detectFirstEncoder, h1, h2]

/-- Claim C4 counterexample: the claim says every trial-encode wait is
limited by a fixed timeout so that a hanging trial cannot block `detect()`
indefinitely.  The source passes no timeout to `wait()` on line 127, so a
trial process that never exits blocks the wait forever. -/
theorem C4_counterexample :
    h264_trial_wait_timeout.isSome = false ∧
    waitBlocksForever none h264_trial_wait_timeout = true := by
  constructor <;> rfl

/-- Claim C4 (amended): the trial-encode wait in `h264_encoder` is made
with no timeout, so it is bounded only by the trial process exiting on its
own, and a trial process that hangs blocks `detect()` indefinitely. -/
theorem C4_unbounded_trial_wait :
    h264_trial_wait_timeout = none ∧
    waitBlocksForever none h264_trial_wait_timeout = true := by
  constructor <;> rfl

/-- Helper: if every attempt from `i` up to (but excluding) `N` fails and
attempt `N` succeeds with sample `s`, and `N` is within the remaining
budget `k`, then the retry loop returns `s` after `N + 1 - i` calls. -/
lemma retryCalls_success {α : Type} (capture : Nat → Option α) (s : α) :
    ∀ (k i N : Nat), i ≤ N → N < i + k →
      (∀ j, i ≤ j → j < N → capture j = none) → capture N = some s →
      retryCalls capture k i = (some s, N + 1 - i) := by
  intro k
  induction k with
  | zero => intro i N h1 h2 _ _; omega
  | succ k ih =>
    intro i N h1 h2 hfail hsucc
    by_cases hi : i = N
    · subst hi
      simp [retryCalls, hsucc]
    · have hlt : i < N := lt_of_le_of_ne h1 hi
      have hci : capture i = none := hfail i le_rfl hlt
      have hrec := ih (i + 1) N (by omega) (by omega)
        (fun j hj1 hj2 => hfail j (by omega) hj2) hsucc
      simp [retryCalls, hci, hrec]
      omega

/-- Helper: if every attempt fails, the retry loop makes exactly `k` calls
and returns failure. -/
lemma retryCalls_allFail {α : Type} (capture : Nat → Option α)
    (hfail : ∀ j, capture j = none) :
    ∀ (k i : Nat), retryCalls capture k i = (none, k) := by
  intro k
  induction k with
  | zero => intro i; rfl
  | succ k ih =>
    intro i
    simp [retryCalls, hfail i, ih (i + 1)]

/-- Claim C5: the resolution probe returns the successful sample when the
capture function fails the first N-1 times and succeeds on attempt N with
N at most the retry budget of 20 (making exactly N attempts), and fails
after exactly 20 attempts when the capture function always fails. -/
theorem C5_resolution_probe {α : Type} (capture : Nat → Option α) :
    (∀ (N : Nat) (s : α), 1 ≤ N → N ≤ 20 →
        (∀ j, 1 ≤ j → j < N → capture j = none) → capture N = some s →
        get_webcam_resolution capture = (some s, N)) ∧
    ((∀ j, capture j = none) → get_webcam_resolution capture = (none, 20)) := by
  constructor
  · intro N s h1 h2 hfail hsucc
    have := retryCalls_success capture s 20 1 N h1 (by omega) hfail hsucc
    simpa [get_webcam_resolution, Nat.add_sub_cancel] using this
  · intro hfail
    exact retryCalls_allFail capture hfail 20 1

/-- Concrete capture function for the C5 witness: attempts 1 and 2 fail,
attempt 3 yields the sample (640, 480). -/
def captureWitness : Nat → Option (Nat × Nat) :=
  fun i => if i = 3 then some (640, 480) else none

/-- Concrete capture function that always fails, for the C5 witness. -/
def captureAlwaysFail : Nat → Option (Nat × Nat) :=
  fun _ => none

theorem C5_resolution_probe_witness :
    get_webcam_resolution captureWitness = (some (640, 480), 3) ∧
    get_webcam_resolution captureAlwaysFail = (none, 20) :=
  ⟨(C5_resolution_probe captureWitness).1 3 (640, 480) (by decide) (by decide)
      (by
        intro j hj1 hj2
        have hne : j ≠ 3 := by omega
        simp [captureWitness, hne])
      rfl,
   (C5_resolution_probe captureAlwaysFail).2 (fun _ => rfl)⟩

/-- Claim C6: on the full tier the policy returns framerate 25 and the
table bitrate by pixel area (400000 bps for area up to 480x270, 1300000 up
to 960x540, 2000000 up to 1280x720, 3000000 otherwise); on the restricted
tier it returns framerate 5 and the table bitrate integer-divided by 4.
In particular (1640, 1232) restricted gives (5, 750000) and (960, 540)
full gives (25, 1300000). -/
theorem C6_bitrate_policy :
    (∀ w h : Nat, w * h ≤ 480 * 270 → bitrate_for_dim w h = 400000) ∧
    (∀ w h : Nat, 480 * 270 < w * h → w * h ≤ 960 * 540 →
      bitrate_for_dim w h = 1300000) ∧
    (∀ w h : Nat, 960 * 540 < w * h → w * h ≤ 1280 * 720 →
      bitrate_for_dim w h = 2000000) ∧
    (∀ w h : Nat, 1280 * 720 < w * h → bitrate_for_dim w h = 3000000) ∧
    (∀ w h : Nat, stream_policy w h true = (25, bitrate_for_dim w h)) ∧
    (∀ w h : Nat, stream_policy w h false = (5, bitrate_for_dim w h / 4)) ∧
    stream_policy 1640 1232 false = (5, 750000) ∧
    stream_policy 960 540 true = (25, 1300000) := by
  refine ⟨?_, ?_, ?_, ?_, ?_, ?_, by decide, by decide⟩
  · intro w h h1
    simp only [bitrate_for_dim, bitrateOfArea]
    split_ifs <;> omega
  · intro w h h1 h2
    simp only [bitrate_for_dim, bitrateOfArea]
    split_ifs <;> omega
  · intro w h h1 h2
    simp only [bitrate_for_dim, bitrateOfArea]
    split_ifs <;> omega
  · intro w h h1
    simp only [bitrate_for_dim, bitrateOfArea]
    split_ifs <;> omega
  · intro w h
    simp [stream_policy]
  · intro w h
    simp [stream_policy]

theorem C6_bitrate_policy_witness :
    bitrate_for_dim 480 270 = 400000 ∧
    bitrate_for_dim 960 540 = 1300000 ∧
    bitrate_for_dim 1280 720 = 2000000 ∧
    bitrate_for_dim 1640 1232 = 3000000 ∧
    stream_policy 320 240 true = (25, bitrate_for_dim 320 240) ∧
    stream_policy 320 240 false = (5, bitrate_for_dim 320 240 / 4) ∧
    stream_policy 1640 1232 false = (5, 750000) ∧
    stream_policy 960 540 true = (25, 1300000) :=
  ⟨C6_bitrate_policy.1 480 270 (by decide),
   C6_bitrate_policy.2.1 960 540 (by decide) (by decide),
   C6_bitrate_policy.2.2.1 1280 720 (by decide) (by decide),
   C6_bitrate_policy.2.2.2.1 1640 1232 (by decide),
   C6_bitrate_policy.2.2.2.2.1 320 240,
   C6_bitrate_policy.2.2.2.2.2.1 320 240,
   C6_bitrate_policy.2.2.2.2.2.2.1,
   C6_bitrate_policy.2.2.2.2.2.2.2⟩

/-- Claim C7: the bitrate table is monotone non-decreasing in pixel area;
for the same resolution the restricted-tier bitrate is exactly the
full-tier bitrate integer-divided by 4; and for every resolution and tier
the bitrate is positive and the framerate is 5 or 25. -/
theorem C7_policy_invariants :
    (∀ a1 a2 : Nat, a1 ≤ a2 → bitrateOfArea a1 ≤ bitrateOfArea a2) ∧
    (∀ w h : Nat, (stream_policy w h false).2 = (stream_policy w h true).2 / 4) ∧
    (∀ (w h : Nat) (pro : Bool), 0 < (stream_policy w h pro).2 ∧
      ((stream_policy w h pro).1 = 5 ∨ (stream_policy w h pro).1 = 25)) := by
  refine ⟨?_, ?_, ?_⟩
  · intro a1 a2 hle
    simp only [bitrateOfArea]
    split_ifs <;> omega
  · intro w h
    simp [stream_policy]
  · intro w h pro
    have hpos : 0 < bitrate_for_dim w h / 4 := by
      simp only [bitrate_for_dim, bitrateOfArea]
      split_ifs <;> omega
    have hpos2 : 0 < bitrate_for_dim w h := by
      simp only [bitrate_for_dim, bitrateOfArea]
      split_ifs <;> omega
    cases pro <;> simp [stream_policy, hpos, hpos2]

theorem C7_policy_invariants_witness :
    bitrateOfArea 100 ≤ bitrateOfArea 2000000 ∧
    (stream_policy 960 540 false).2 = (stream_policy 960 540 true).2 / 4 ∧
    (0 < (stream_policy 960 540 false).2 ∧
      ((stream_policy 960 540 false).1 = 5 ∨ (stream_policy 960 540 false).1 = 25)) :=
  ⟨C7_policy_invariants.1 100 2000000 (by decide),
   C7_policy_invariants.2.1 960 540,
   C7_policy_invariants.2.2 960 540 false⟩

/-- A handle to the spawned ffmpeg process, with whether the underlying
process is still running and its exit code when it has exited. -/
structure FfmpegProc where
  running : Bool
  returncode : Int
  deriving DecidableEq

/-- The mutable state of `WebcamStreamer` relevant to the supervisor:
`self.ffmpeg_proc` and `self.shutting_down` (webcam_stream.py lines 88-89). -/
structure SupervisorState where
  ffmpeg_proc : Option FfmpegProc
  shutting_down : Bool
  deriving DecidableEq

/-- The state set up by `WebcamStreamer.__init__` (webcam_stream.py lines
88-89): no process, shutdown flag false. -/
def initState : SupervisorState :=
  { ffmpeg_proc := none, shutting_down := false }

/-- The observable behaviour of one spawned ffmpeg process: whether it
exits within the 10-second startup grace window of `start_ffmpeg`, its
exit code, and the output captured by `communicate()`. -/
structure ProcBehavior where
  exits_within_grace : Bool
  returncode : Int
  stdout : String
  stderr : String

/-- The message logged by `start_ffmpeg` when the process dies within the
grace window (webcam_stream.py line 163). -/
def startupLogMsg (b : ProcBehavior) : String :=
  "STDOUT:\n" ++ b.stdout ++ "\nSTDERR:\n" ++ b.stderr ++ "\n"

/-- The exception message raised by `start_ffmpeg` when the process dies
within the grace window (webcam_stream.py line 165). -/
def startupErrorMsg (b : ProcBehavior) : String :=
  "ffmpeg quit! This should not happen. Exit code: " ++ toString b.returncode

/-- Embeds `WebcamStreamer.start_ffmpeg` (webcam_stream.py lines 152-167):
stores the spawned process in `self.ffmpeg_proc`, then waits with
`timeout=10`.  If the process exits within that grace window the captured
output is logged and an exception is raised (`Except.error`); on
`TimeoutExpired` (the process survived) it proceeds normally.  Returns the
new state, the log messages emitted, and the normal/exceptional outcome. -/
def start_ffmpeg (st : SupervisorState) (b : ProcBehavior) :
    SupervisorState × List String × Except String Unit :=
  let p : FfmpegProc := { running := !b.exits_within_grace, returncode := b.returncode }
  let st1 : SupervisorState := { st with ffmpeg_proc := some p }
  if b.exits_within_grace then
    (st1, [startupLogMsg b], Except.error (startupErrorMsg b))
  else
    (st1, [], Except.ok ())

/-- Claim C2: when the spawned process exits within the startup grace
window, `start_ffmpeg` raises after logging the captured diagnostic
output, and no running process handle remains. -/
theorem C2_startup_failure (st : SupervisorState) (b : ProcBehavior)
    (h : b.exits_within_grace = true) :
    (start_ffmpeg st b).2.2 = Except.error (startupErrorMsg b) ∧
    (start_ffmpeg st b).2.1 = [startupLogMsg b] ∧
    (∀ p, (start_ffmpeg st b).1.ffmpeg_proc = some p → p.running = false) := by
  refine ⟨by simp [start_ffmpeg, h], by simp [start_ffmpeg, h], ?_⟩
  intro p hp
  simp [start_ffmpeg, h] at hp
  rw [← hp]

/-- Concrete process behaviour for the C2 witness: exits immediately with
code 1. -/
def crashingProc : ProcBehavior :=
  { exits_within_grace := true, returncode := 1, stdout := "", stderr := "err line" }

theorem C2_startup_failure_witness :
    (start_ffmpeg initState crashingProc).2.2 = Except.error (startupErrorMsg crashingProc) ∧
    (start_ffmpeg initState crashingProc).2.1 = [startupLogMsg crashingProc] ∧
    (∀ p, (start_ffmpeg initState crashingProc).1.ffmpeg_proc = some p →
      p.running = false) :=
  C2_startup_failure initState crashingProc rfl

/-- Embeds `deque(maxlen=50).append` (webcam_stream.py lines 172, 185) for
a general `maxlen`: when full, the oldest element is discarded. -/
def dequePush (maxlen : Nat) (buf : List String) (x : String) : List String :=
  if buf.length < maxlen then buf ++ [x] else (buf ++ [x]).drop 1

/-- The suffix of `l` of length at most `n` (its most recent `n` entries). -/
def window (n : Nat) (l : List String) : List String :=
  l.drop (l.length - n)

/-- Embeds the `while True` loop of `monitor_ffmpeg_process`
(webcam_stream.py lines 170-185).  `buf` is the ring buffer so far, the
second list the remaining stderr lines before EOF (`readline` returns an
empty string exactly at EOF).  Returns `none` when the monitor exits
without reporting, `some lines` when it emits one unexpected-exit report
carrying the retained lines. -/
def monitorLoop (shutting_down : Bool) : List String → List String → Option (List String)
  | buf, [] => if shutting_down then none else some buf
  | buf, err :: rest =>
    if err = "" then
      if shutting_down then none else some buf
    else
      monitorLoop shutting_down (dequePush 50 buf err) rest

/-- Embeds `monitor_ffmpeg_process` (webcam_stream.py lines 170-185),
started with an empty ring buffer. -/
def monitor_ffmpeg_process (shutting_down : Bool) (stderrLines : List String) :
    Option (List String) :=
  monitorLoop shutting_down [] stderrLines

lemma window_length_le (n : Nat) (l : List String) : (window n l).length ≤ n := by
  simp only [window, List.length_drop]
  omega

lemma window_of_short (n : Nat) (l : List String) (h : l.length ≤ n) :
    window n l = l := by
  have h0 : l.length - n = 0 := by omega
  simp [window, h0]

lemma dequePush_eq_window (buf : List String) (x : String)
    (h : buf.length ≤ 50) : dequePush 50 buf x = window 50 (buf ++ [x]) := by
  by_cases hlt : buf.length < 50
  · have : (buf ++ [x]).length ≤ 50 := by simp; omega
    rw [window_of_short 50 (buf ++ [x]) this]
    simp [dequePush, hlt]
  · have h50 : buf.length = 50 := by omega
    have hlen : (buf ++ [x]).length - 50 = 1 := by simp [h50]
    unfold dequePush window
    rw [if_neg hlt, hlen]

lemma dequePush_length_le (buf : List String) (x : String)
    (h : buf.length ≤ 50) : (dequePush 50 buf x).length ≤ 50 := by
  rw [dequePush_eq_window buf x h]
  exact window_length_le 50 (buf ++ [x])

lemma window_idem_append (a b : List String) :
    window 50 (window 50 a ++ b) = window 50 (a ++ b) := by
  by_cases h : a.length ≤ 50
  · rw [window_of_short 50 a h]
  · simp only [window, List.length_append, List.length_drop]
    rw [List.drop_append_eq_append_drop, List.drop_append_eq_append_drop]
    have e1 : a.length - 50 + b.length - 50 = b.length + (51 - 51) + (a.length - 50) - 50 := by
      omega
    congr 1
    · rw [List.drop_drop]
      congr 1
      omega
    · congr 1
      rw [List.length_drop]
      omega

lemma monitorLoop_true (ls : List String) :
    ∀ buf, monitorLoop true buf ls = none := by
  induction ls with
  | nil => intro buf; rfl
  | cons x rest ih =>
    intro buf
    by_cases hx : x = "" <;> simp [monitorLoop, hx, ih]

lemma monitorLoop_false_eq (ls : List String) :
    ∀ buf, "" ∉ ls → buf.length ≤ 50 →
      monitorLoop false buf ls = some (window 50 (buf ++ ls)) := by
  induction ls with
  | nil =>
    intro buf _ hb
    simp [monitorLoop, window_of_short 50 buf hb]
  | cons x rest ih =>
    intro buf hmem hb
    have hx : x ≠ "" := fun h => hmem (by rw [h]; exact List.mem_cons_self _ _)
    have hmem2 : "" ∉ rest := fun h => hmem (List.mem_cons_of_mem x h)
    rw [show monitorLoop false buf (x :: rest) =
        monitorLoop false (dequePush 50 buf x) rest by simp [monitorLoop, hx]]
    rw [ih (dequePush 50 buf x) hmem2 (dequePush_length_le buf x hb)]
    rw [dequePush_eq_window buf x hb, window_idem_append (buf ++ [x]) rest]
    simp

/-- Claim C1: on end-of-stream, the output monitor exits without any
report when the shutdown flag is set; when it is unset it emits exactly
one report (the `some` outcome) carrying the most recent stderr lines,
bounded by the ring-buffer size 50, and exits. -/
theorem C1_output_monitor (ls : List String) (hne : "" ∉ ls) :
    monitor_ffmpeg_process true ls = none ∧
    monitor_ffmpeg_process false ls = some (window 50 ls) ∧
    (window 50 ls).length ≤ 50 := by
  refine ⟨monitorLoop_true ls [], ?_, window_length_le 50 ls⟩
  have := monitorLoop_false_eq ls [] hne (by simp)
  simpa [monitor_ffmpeg_process] using this

/-- Concrete stderr line for the C1 witness. -/
def sampleLine : String := "frame dropped"

theorem C1_output_monitor_witness :
    monitor_ffmpeg_process true [sampleLine] = none ∧
    monitor_ffmpeg_process false [sampleLine] = some (window 50 [sampleLine]) ∧
    (window 50 [sampleLine]).length ≤ 50 :=
  C1_output_monitor [sampleLine] (by decide)

/-- The observable actions performed by `restore`, in program order. -/
inductive RestoreEvent
  | setShutdownFlag
  | terminateProc
  | releaseHandle
  deriving DecidableEq

/-- Message carried by a failing `terminate()` call in the model. -/
def terminateFailedMsg : String := "terminate failed"

/-- Models `self.ffmpeg_proc.terminate()` (webcam_stream.py line 197),
which may raise (`termFails = true`). -/
def terminateCall (termFails : Bool) : Except String Unit :=
  if termFails then Except.error terminateFailedMsg else Except.ok ()

/-- Embeds `WebcamStreamer.restore` (webcam_stream.py lines 192-201):
first set `self.shutting_down = True`, then, if a process handle is held,
request termination with any exception swallowed by the bare
`except Exception: pass`, and finally set `self.ffmpeg_proc = None`.
Returns the new state and the trace of actions in program order;
`termFails` says whether the `terminate()` call raises. -/
def restore (st : SupervisorState) (termFails : Bool) :
    SupervisorState × List RestoreEvent :=
  let st1 : SupervisorState := { st with shutting_down := true }
  match st1.ffmpeg_proc with
  | some _ =>
    let _swallowed : Unit :=
      match terminateCall termFails with
      | Except.ok _ => ()
      | Except.error _ => ()
    ({ st1 with ffmpeg_proc := none },
      [RestoreEvent.setShutdownFlag, RestoreEvent.terminateProc,
        RestoreEvent.releaseHandle])
  | none =>
    ({ st1 with ffmpeg_proc := none },
      [RestoreEvent.setShutdownFlag, RestoreEvent.releaseHandle])

/-- Claim C8: `restore` sets the shutdown flag before any termination
request (it is the first action of every trace), releases the process
handle, is idempotent, and is safe (requests no termination) when no
process is running. -/
theorem C8_stop_ordering (st : SupervisorState) (tf : Bool) :
    (restore st tf).1.ffmpeg_proc = none ∧
    (restore st tf).1.shutting_down = true ∧
    (restore st tf).2.head? = some RestoreEvent.setShutdownFlag ∧
    (∀ i, (restore st tf).2.get? i = some RestoreEvent.terminateProc → 0 < i) ∧
    (∀ tf2, restore ((restore st tf).1) tf2 = ((restore st tf).1,
      [RestoreEvent.setShutdownFlag, RestoreEvent.releaseHandle])) ∧
    (st.ffmpeg_proc = none →
      (restore st tf).2 = [RestoreEvent.setShutdownFlag, RestoreEvent.releaseHandle]) := by
  refine ⟨?_, ?_, ?_, ?_, ?_, ?_⟩
  · cases hp : st.ffmpeg_proc <;> simp [restore, hp]
  · cases hp : st.ffmpeg_proc <;> simp [restore, hp]
  · cases hp : st.ffmpeg_proc <;> simp [restore, hp]
  · intro i hi
    match i with
    | 0 => cases hp : st.ffmpeg_proc <;> simp [restore, hp] at hi
    | n + 1 => omega
  · intro tf2
    cases hp : st.ffmpeg_proc <;> simp [restore, hp]
  · intro h
    simp [restore, h]

/-- Concrete one-process state for the C8 and C9 witnesses. -/
def runningState : SupervisorState :=
  { ffmpeg_proc := some { running := true, returncode := 0 },
    shutting_down := false }

theorem C8_stop_ordering_witness :
    (restore runningState true).1.ffmpeg_proc = none ∧
    (restore runningState true).1.shutting_down = true ∧
    (restore runningState true).2.head? = some RestoreEvent.setShutdownFlag ∧
    (restore initState true).2 =
      [RestoreEvent.setShutdownFlag, RestoreEvent.releaseHandle] :=
  ⟨(C8_stop_ordering runningState true).1,
   (C8_stop_ordering runningState true).2.1,
   (C8_stop_ordering runningState true).2.2.1,
   (C8_stop_ordering initState true).2.2.2.2.2 rfl⟩

/-- The supervisor operations that touch `SupervisorState`. -/
inductive SupervisorOp
  | startFfmpegOp (b : ProcBehavior)
  | restoreOp (termFails : Bool)

/-- The state transition of each supervisor operation. -/
def stepOp : SupervisorOp → SupervisorState → SupervisorState
  | SupervisorOp.startFfmpegOp b, st => (start_ffmpeg st b).1
  | SupervisorOp.restoreOp tf, st => (restore st tf).1

/-- Claim C9: the shutdown flag is false at construction, once true it
stays true under every operation, and the only operation that changes it
is `restore`, which changes it to true: the flag only ever transitions
from false to true. -/
theorem C9_shutdown_flag (st : SupervisorState) (op : SupervisorOp) :
    initState.shutting_down = false ∧
    (st.shutting_down = true → (stepOp op st).shutting_down = true) ∧
    ((stepOp op st).shutting_down ≠ st.shutting_down →
      (∃ tf, op = SupervisorOp.restoreOp tf) ∧
        (stepOp op st).shutting_down = true) := by
  refine ⟨rfl, ?_, ?_⟩
  · intro hst
    cases op with
    | startFfmpegOp b =>
      by_cases hb : b.exits_within_grace <;>
        simp [stepOp, start_ffmpeg, hb, hst]
    | restoreOp tf =>
      cases hp : st.ffmpeg_proc <;> simp [stepOp, restore, hp]
  · intro hne
    cases op with
    | startFfmpegOp b =>
      exfalso
      apply hne
      by_cases hb : b.exits_within_grace <;>
        simp [stepOp, start_ffmpeg, hb]
    | restoreOp tf =>
      refine ⟨⟨tf, rfl⟩, ?_⟩
      cases hp : st.ffmpeg_proc <;> simp [stepOp, restore, hp]

/-- Concrete already-shut-down state for the C9 witness. -/
def shutState : SupervisorState :=
  { ffmpeg_proc := none, shutting_down := true }

theorem C9_shutdown_flag_witness :
    initState.shutting_down = false ∧
    (stepOp (SupervisorOp.restoreOp false) shutState).shutting_down = true ∧
    ((∃ tf, SupervisorOp.restoreOp false = SupervisorOp.restoreOp tf) ∧
      (stepOp (SupervisorOp.restoreOp false) runningState).shutting_down = true) :=
  ⟨(C9_shutdown_flag shutState (SupervisorOp.restoreOp false)).1,
   (C9_shutdown_flag shutState (SupervisorOp.restoreOp false)).2.1 rfl,
   (C9_shutdown_flag runningState (SupervisorOp.restoreOp false)).2.2
     (by simp [stepOp, restore, runningState])⟩

/-- Embeds `restore` with its exceptional behaviour left explicit: the
whole body is modelled in `Except`, the `try/except Exception: pass`
around `terminate()` (webcam_stream.py lines 196-199) catching the
failure, and `self.ffmpeg_proc = None` (line 201) running afterwards. -/
def restoreExc (st : SupervisorState) (termFails : Bool) :
    Except String SupervisorState :=
  let st1 : SupervisorState := { st with shutting_down := true }
  match st1.ffmpeg_proc with
  | some _ =>
    match terminateCall termFails with
    | Except.ok _ => Except.ok { st1 with ffmpeg_proc := none }
    | Except.error _ => Except.ok { st1 with ffmpeg_proc := none }
  | none => Except.ok { st1 with ffmpeg_proc := none }

/-- Claim C10: `restore` never raises to its caller whatever the process
state and even when `terminate()` fails; it always returns normally with
the process handle released, and a failing termination leaves the same
result as a successful one. -/
theorem C10_stop_never_raises (st : SupervisorState) (tf : Bool) :
    (∃ st2, restoreExc st tf = Except.ok st2 ∧ st2.ffmpeg_proc = none) ∧
    restoreExc st tf = restoreExc st false := by
  cases hp : st.ffmpeg_proc <;> cases tf <;>
    simp [restoreExc, terminateCall, terminateFailedMsg, hp]

end MoonrakerObico
